import Mathlib

/-!
Shallow embedding of the Label Studio MCP server's tool-dispatch layer
(`label_studio_mcp/mcp_server.py` and `label_studio_mcp/mcp_env.py`).

The tools are thin wrappers over an external client library (`ls.projects`,
`ls.tasks`, `ls.predictions`). We embed each tool body as a pure Lean
function; the external world (remote collections, remote calls, the local
file system) enters as explicit arguments, and the remote calls a body
issues are returned alongside its string result where a claim is about
them. Python values flowing through JSON serialization are modelled by
`PyVal`; Python keyword-argument values (which additionally include `None`
and floats) by `KwArg`, with floats carried as exact rationals (a Python
float is an exact rational; no arithmetic is ever performed on them here).
-/

namespace LabelStudioMcp

/-- A Python value as it appears in the JSON payloads this layer builds:
`None`, `bool`, `int`, `str`, lists and (insertion-ordered) dicts. -/
inductive PyVal where
  | null : PyVal
  | bool (b : Bool) : PyVal
  | int (n : Int) : PyVal
  | str (s : String) : PyVal
  | arr (xs : List PyVal) : PyVal
  | obj (kvs : List (String × PyVal)) : PyVal

/-- A value bound to a keyword argument before `None`-filtering: the kwarg
dicts built by `create_label_studio_project_tool` and
`create_label_studio_prediction_tool` mix strings, bools, ints, lists,
floats and `None`. -/
inductive KwArg where
  | none : KwArg
  | str (s : String) : KwArg
  | bool (b : Bool) : KwArg
  | int (n : Int) : KwArg
  | list (xs : List PyVal) : KwArg
  | float (q : Rat) : KwArg

/-- Python's `v is not None` test on a keyword-argument value. -/
def KwArg.isNotNone : KwArg → Bool
  | KwArg.none => false
  | _ => true

/-- The dict comprehension `{k: v for k, v in kwargs.items() if v is not None}`
used by both creation tools (mcp_server.py lines 208 and 398): insertion
order is preserved, `None`-valued entries are dropped. -/
def filterNoneKwargs (kwargs : List (String × KwArg)) : List (String × KwArg) :=
  kwargs.filter (fun kv => kv.2.isNotNone)

/-- An optional-`str` parameter value as it lands in the kwargs dict. -/
def optStr : Option String → KwArg
  | Option.none => KwArg.none
  | Option.some s => KwArg.str s

/-- An optional-`bool` parameter value as it lands in the kwargs dict. -/
def optBool : Option Bool → KwArg
  | Option.none => KwArg.none
  | Option.some b => KwArg.bool b

/-- The `kwargs` dict built by `create_label_studio_project_tool`
(mcp_server.py lines 195-205), in source order. A parameter holding
Python `None` is `Option.none`. -/
def create_project_kwargs (title label_config : String)
    (description expert_instruction : Option String)
    (show_instruction show_skip_button enable_empty_annotation
      show_annotation_history : Option Bool)
    (color : Option String) : List (String × KwArg) :=
  [("title", KwArg.str title),
   ("label_config", KwArg.str label_config),
   ("description", optStr description),
   ("expert_instruction", optStr expert_instruction),
   ("show_instruction", optBool show_instruction),
   ("show_skip_button", optBool show_skip_button),
   ("enable_empty_annotation", optBool enable_empty_annotation),
   ("show_annotation_history", optBool show_annotation_history),
   ("color", optStr color)]

/-- `create_label_studio_project_tool`'s kwargs when the caller supplies only
`title` and `label_config`, every other parameter taking its declared
default (mcp_server.py lines 165-174: `description=None`,
`expert_instruction=None`, `show_instruction=False`, `show_skip_button=True`,
`enable_empty_annotation=True`, `show_annotation_history=False`,
`color=None`). -/
def create_project_kwargs_defaults (title label_config : String) :
    List (String × KwArg) :=
  create_project_kwargs title label_config Option.none Option.none
    (Option.some false) (Option.some true) (Option.some true)
    (Option.some false) Option.none

/-- The `filtered_kwargs` forwarded to `ls.projects.create` (line 208-211). -/
def create_project_filtered_kwargs_defaults (title label_config : String) :
    List (String × KwArg) :=
  filterNoneKwargs (create_project_kwargs_defaults title label_config)

/-- The `sdk_kwargs` dict built by `create_label_studio_prediction_tool`
(mcp_server.py lines 392-397), in source order; `score` is a Python float,
carried as an exact rational. -/
def create_prediction_sdk_kwargs (task_id : Int) (result : List PyVal)
    (model_version : Option String) (score : Option Rat) :
    List (String × KwArg) :=
  [("task", KwArg.int task_id),
   ("result", KwArg.list result),
   ("model_version", optStr model_version),
   ("score", score.elim KwArg.none KwArg.float)]

/-- The configured client handle of mcp_env.py: base URL and API key. -/
structure LSClient where
  base_url : String
  api_key : String

/-- What a guarded tool body does when invoked: return a string, or raise an
exception with a type name and a message (`str(e)`). -/
inductive ToolOutcome where
  | ok (s : String) : ToolOutcome
  | raises (excType excMsg : String) : ToolOutcome

/-- The fixed sentinel returned when the client handle is unset
(mcp_server.py lines 25-27, three adjacent string literals). -/
def ls_unavailable_error : String :=
  "Error: Label Studio client not available. Please check server logs for initialization errors (e.g., missing 'LABEL_STUDIO_API_KEY', invalid key, or connection issue with 'LABEL_STUDIO_URL')."

/-- The `require_ls_connection` decorator's wrapper (mcp_server.py lines
19-38), applied to a tool `func` with `functools.wraps`-preserved name
`funcName`, at argument tuple `args` (of arbitrary type `α`), under
connection handle `ls`: if the handle is unset return the sentinel without
invoking `func`; otherwise invoke it and turn a raised exception into
`"Error in function '<name>': [<ErrorKind>] <details>"`. -/
def require_ls_connection {α : Type} (ls : Option LSClient) (funcName : String)
    (func : α → ToolOutcome) (args : α) : String :=
  match ls with
  | Option.none => ls_unavailable_error
  | Option.some _ =>
    match func args with
    | ToolOutcome.ok s => s
    | ToolOutcome.raises ty msg =>
        "Error in function '" ++ funcName ++ "': [" ++ ty ++ "] " ++ msg

/-- One lowercase hexadecimal digit, as Python's `\uXXXX` escapes use. -/
def hexDigit (n : Nat) : Char :=
  if n < 10 then Char.ofNat (48 + n) else Char.ofNat (87 + n)

/-- Four lowercase hexadecimal digits. -/
def hex4 (n : Nat) : String :=
  String.mk [hexDigit (n / 4096 % 16), hexDigit (n / 256 % 16),
             hexDigit (n / 16 % 16), hexDigit (n % 16)]

/-- How CPython's `json.dumps` (default `ensure_ascii=True`) renders one
character inside a string literal: the two-character escapes for quote,
backslash and the common control characters, `\uXXXX` for other control or
non-ASCII characters (a surrogate pair beyond the BMP), the character
itself otherwise. -/
def jsonEscapeChar (c : Char) : String :=
  if c = '"' then "\\\""
  else if c = '\\' then "\\\\"
  else if c = '\n' then "\\n"
  else if c = '\t' then "\\t"
  else if c = '\r' then "\\r"
  else if c = '\x08' then "\\b"
  else if c = '\x0c' then "\\f"
  else if c.toNat < 32 || 126 < c.toNat then
    if c.toNat ≤ 65535 then "\\u" ++ hex4 c.toNat
    else
      "\\u" ++ hex4 (55296 + (c.toNat - 65536) / 1024) ++
      "\\u" ++ hex4 (56320 + (c.toNat - 65536) % 1024)
  else String.singleton c

/-- A string rendered as a JSON string literal, per `json.dumps`. -/
def jsonString (s : String) : String :=
  "\"" ++ String.join (s.data.map jsonEscapeChar) ++ "\""

mutual

/-- CPython's `json.dumps` with its default separators (`", "` between
items, `": "` after a key) on the `PyVal` values this layer serializes. -/
def jsonDumps : PyVal → String
  | PyVal.null => "null"
  | PyVal.bool true => "true"
  | PyVal.bool false => "false"
  | PyVal.int n => toString n
  | PyVal.str s => jsonString s
  | PyVal.arr xs => "[" ++ String.intercalate ", " (jsonDumpsList xs) ++ "]"
  | PyVal.obj kvs =>
      "\x7b" ++ String.intercalate ", " (jsonDumpsPairs kvs) ++ "\x7d"

/-- The rendered elements of a JSON array. -/
def jsonDumpsList : List PyVal → List String
  | [] => []
  | x :: xs => jsonDumps x :: jsonDumpsList xs

/-- The rendered `"key": value` entries of a JSON object. -/
def jsonDumpsPairs : List (String × PyVal) → List String
  | [] => []
  | kv :: rest => (jsonString kv.1 ++ ": " ++ jsonDumps kv.2) :: jsonDumpsPairs rest

end

/-- Python dict assignment `d[k] = v` on an insertion-ordered dict: replace
the value in place if the key is present, append the pair otherwise. -/
def dictSet : List (String × PyVal) → String → PyVal → List (String × PyVal)
  | [], k, v => [(k, v)]
  | (k', v') :: rest, k, v =>
      if k' = k then (k, v) :: rest else (k', v') :: dictSet rest k v

/-- Python dict lookup `d[k]` (as an `Option`): the value stored under the
first occurrence of `k`. -/
def dictGet (d : List (String × PyVal)) (k : String) : Option PyVal :=
  (d.find? (fun kv => kv.1 == k)).map Prod.snd

/-- A project record as the remote pager yields it to
`get_label_studio_projects_tool`: `id` is read directly, `title` and
`task_number` through `getattr` with a default, so each is `Option.none`
exactly when the attribute is absent. -/
structure RemoteProject where
  id : Int
  title : Option PyVal
  task_number : Option PyVal

/-- The `project_data` dict built for one pager entry (mcp_server.py lines
65-69): `getattr(project, 'title', 'N/A')` and
`getattr(project, 'task_number', 0)`. -/
def project_summary (p : RemoteProject) : PyVal :=
  PyVal.obj [("id", PyVal.int p.id),
             ("title", p.title.getD (PyVal.str "N/A")),
             ("task_count", p.task_number.getD (PyVal.int 0))]

/-- The pager loop of `get_label_studio_projects_tool` (lines 60-71):
`projects_processed` starts at `n`, the loop breaks as soon as it
reaches 100, otherwise appends the entry's summary and counts it. -/
def projects_loop : List RemoteProject → Nat → List PyVal
  | [], _ => []
  | p :: ps, n =>
      if 100 ≤ n then [] else project_summary p :: projects_loop ps (n + 1)

/-- Body of `get_label_studio_projects_tool` (lines 55-73) given the remote
project collection the pager iterates. -/
def get_label_studio_projects_tool (pager : List RemoteProject) : String :=
  jsonDumps (PyVal.arr (projects_loop pager 0))

/-- A task record as the remote yields it: `id` read directly, `data`
`Option.none` exactly when the task object has no `data` attribute. -/
structure RemoteTask where
  id : Int
  data : Option PyVal

/-- The `task_summary` dict built for one pager entry (lines 117-121):
`data_keys` is the data dict's key list when `task.data` is a dict, and
`[]` otherwise. -/
def task_summary (t : RemoteTask) : PyVal :=
  match t.data with
  | Option.some (PyVal.obj kvs) =>
      PyVal.obj [("id", PyVal.int t.id),
                 ("data_keys", PyVal.arr (kvs.map (fun kv => PyVal.str kv.1)))]
  | _ => PyVal.obj [("id", PyVal.int t.id), ("data_keys", PyVal.arr [])]

/-- The pager loop of `list_label_studio_project_tasks_tool` (lines
110-123), breaking as soon as `tasks_processed` reaches 50. -/
def tasks_loop : List RemoteTask → Nat → List PyVal
  | [], _ => []
  | t :: ts, n =>
      if 50 ≤ n then [] else task_summary t :: tasks_loop ts (n + 1)

/-- Body of `list_label_studio_project_tasks_tool` (lines 103-125) given the
remote task collection `ls.tasks.list(project=project_id)` yields. -/
def list_label_studio_project_tasks_tool (project_id : Int)
    (pager : List RemoteTask) : String :=
  jsonDumps (PyVal.arr (tasks_loop pager 0))

/-- Body of `get_label_studio_task_data_tool` (lines 129-136): fetch the
task with `ls.tasks.get(id=task_id)` — `tasks_get` embeds the remote
`get` endpoint — and dump its `data` attribute, or `{}` when absent. -/
def get_label_studio_task_data_tool (tasks_get : Int → RemoteTask)
    (project_id task_id : Int) : String :=
  let task := tasks_get task_id
  match task.data with
  | Option.some d => jsonDumps d
  | Option.none => jsonDumps (PyVal.obj [])

/-- An external `datetime.datetime` value, modelled by its `isoformat()`
rendering (the only operation this layer applies to it). A datetime object
is always truthy in Python, so `if project.created_at` is `created_at`
being non-`None`. -/
structure Datetime where
  isoformat : String

/-- A project object that exposes the structured full-dump accessor
(`model_dump`), the branch of `get_label_studio_project_details_tool` the
claim about it concerns: `model_dump_fields` is the dump with no
exclusions, `created_at` the attribute of the same name. -/
structure ProjectRecord where
  model_dump_fields : List (String × PyVal)
  created_at : Option Datetime

/-- The `project_data` dict built by
`get_label_studio_project_details_tool` in its `model_dump` branch
(mcp_server.py lines 81-83): the dump with `created_at` and `updated_at`
excluded, then `project_data['created_at'] = project.created_at.isoformat()
if project.created_at else None`. -/
def project_details_data (p : ProjectRecord) : List (String × PyVal) :=
  let dumped := p.model_dump_fields.filter
    (fun kv => !(kv.1 == "created_at") && !(kv.1 == "updated_at"))
  dictSet dumped "created_at"
    (match p.created_at with
     | Option.some dt => PyVal.str dt.isoformat
     | Option.none => PyVal.null)

/-- Body of `get_label_studio_project_details_tool` (lines 77-84) for a
project exposing `model_dump`. -/
def get_label_studio_project_details_tool (p : ProjectRecord) : String :=
  jsonDumps (PyVal.obj (project_details_data p))

/-- The combined outcome of `open(tasks_file_path)` + `json.load(f)` in
`import_label_studio_project_tasks_tool` (lines 314-315), matching the
order of its `except` clauses: `FileNotFoundError`, `PermissionError`,
`json.JSONDecodeError` (with `str(e)`), any other exception (with its type
name, message and formatted traceback), or a successfully parsed value. -/
inductive FileJsonOutcome where
  | fileNotFound : FileJsonOutcome
  | permissionDenied : FileJsonOutcome
  | jsonDecodeError (msg : String) : FileJsonOutcome
  | otherReadError (ty msg tb : String) : FileJsonOutcome
  | parsed (v : PyVal) : FileJsonOutcome

/-- The shape of the object `ls.projects.import_tasks` returns, by the
branch of lines 350-359 that serializes it: a plain dict, an object with
`model_dump`, an object with `dict`, or anything else (kept as `str(...)`
of the object). -/
inductive ImportResult where
  | asDict (kvs : List (String × PyVal)) : ImportResult
  | modelDump (kvs : List (String × PyVal)) : ImportResult
  | dictMethod (kvs : List (String × PyVal)) : ImportResult
  | other (s : String) : ImportResult

/-- Outcome of the remote `ls.projects.import_tasks(id=..., request=...)`
call: a result object, or a raised exception (type name, message,
formatted traceback). -/
inductive ImportCallResult where
  | ok (res : ImportResult) : ImportCallResult
  | raises (ty msg tb : String) : ImportCallResult

/-- The `final_response` dict before `project_url` is added (lines
350-359): `import_result.copy()` / `.model_dump()` / `.dict()` or the
message-and-details fallback. -/
def import_response_dict : ImportResult → List (String × PyVal)
  | ImportResult.asDict kvs => kvs
  | ImportResult.modelDump kvs => kvs
  | ImportResult.dictMethod kvs => kvs
  | ImportResult.other s =>
      [("message", PyVal.str "Import initiated"), ("details", PyVal.str s)]

/-- Body of `import_label_studio_project_tasks_tool` (lines 287-364):
`fileOutcome` embeds reading and JSON-parsing the file at
`tasks_file_path`, `importCall` the remote bulk-import endpoint. Returns
the tool's string result together with the list of remote import calls
issued (each as the `id` and `request` arguments passed), so that the
no-remote-call short-circuits are visible. -/
def import_label_studio_project_tasks_tool (base_url : String)
    (project_id : Int) (tasks_file_path : String)
    (fileOutcome : FileJsonOutcome)
    (importCall : Int → List PyVal → ImportCallResult) :
    String × List (Int × List PyVal) :=
  match fileOutcome with
  | FileJsonOutcome.fileNotFound =>
      ("Error: Tasks file not found at path: " ++ tasks_file_path, [])
  | FileJsonOutcome.permissionDenied =>
      ("Error: Permission denied when trying to read file: " ++ tasks_file_path, [])
  | FileJsonOutcome.jsonDecodeError msg =>
      ("Error: Invalid JSON format in file '" ++ tasks_file_path ++ "' - " ++ msg, [])
  | FileJsonOutcome.otherReadError ty msg tb =>
      ("Unexpected error reading/processing tasks file '" ++ tasks_file_path ++
        "': " ++ ty ++ " - " ++ msg ++ "\n" ++ tb, [])
  | FileJsonOutcome.parsed v =>
    match v with
    | PyVal.arr tasks_list =>
        let project_url :=
          base_url ++ "/projects/" ++ toString project_id ++ "/data"
        match importCall project_id tasks_list with
        | ImportCallResult.raises ty msg tb =>
            ("Error during Label Studio task import API call: " ++ ty ++ " - " ++
              msg ++ "\n" ++ tb, [(project_id, tasks_list)])
        | ImportCallResult.ok res =>
            let final_response :=
              dictSet (import_response_dict res) "project_url" (PyVal.str project_url)
            (jsonDumps (PyVal.obj final_response), [(project_id, tasks_list)])
    | _ =>
        ("Error processing tasks file: JSON file '" ++ tasks_file_path ++
          "' must contain a valid JSON array (list).", [])

/-! ### Helper lemmas -/

theorem dictGet_dictSet (d : List (String × PyVal)) (k : String) (v : PyVal) :
    dictGet (dictSet d k v) k = Option.some v := by
  induction d with
  | nil => simp [dictSet, dictGet]
  | cons kv rest ih =>
    by_cases h : kv.1 = k
    · simp [dictSet, h, dictGet]
    · simpa [dictSet, h, dictGet, List.find?] using ih

theorem mem_dictSet (d : List (String × PyVal)) (k : String) (v : PyVal)
    (kv : String × PyVal) (hmem : kv ∈ dictSet d k v) :
    kv = (k, v) ∨ kv ∈ d := by
  induction d with
  | nil => simpa [dictSet] using hmem
  | cons kv' rest ih =>
    by_cases h : kv'.1 = k
    · simp only [dictSet, if_pos h, List.mem_cons] at hmem
      rcases hmem with h1 | h2
      · exact Or.inl h1
      · exact Or.inr (List.mem_cons_of_mem _ h2)
    · simp only [dictSet, if_neg h, List.mem_cons] at hmem
      rcases hmem with h1 | h2
      · exact Or.inr (by simp [h1])
      · rcases ih h2 with h3 | h4
        · exact Or.inl h3
        · exact Or.inr (List.mem_cons_of_mem _ h4)

theorem projects_loop_length_le (ps : List RemoteProject) (n : Nat) :
    (projects_loop ps n).length ≤ 100 - n := by
  induction ps generalizing n with
  | nil => simp [projects_loop]
  | cons p ps ih =>
    by_cases h : 100 ≤ n
    · simp [projects_loop, h]
    · have := ih (n + 1)
      simp only [projects_loop, if_neg h, List.length_cons]
      omega

theorem tasks_loop_length_le (ts : List RemoteTask) (n : Nat) :
    (tasks_loop ts n).length ≤ 50 - n := by
  induction ts generalizing n with
  | nil => simp [tasks_loop]
  | cons t ts ih =>
    by_cases h : 50 ≤ n
    · simp [tasks_loop, h]
    · have := ih (n + 1)
      simp only [tasks_loop, if_neg h, List.length_cons]
      omega

theorem mem_projects_loop (ps : List RemoteProject) (n : Nat) (v : PyVal)
    (hmem : v ∈ projects_loop ps n) :
    ∃ p, p ∈ ps ∧ v = project_summary p := by
  induction ps generalizing n with
  | nil => simp [projects_loop] at hmem
  | cons p ps ih =>
    by_cases h : 100 ≤ n
    · simp [projects_loop, h] at hmem
    · simp only [projects_loop, if_neg h, List.mem_cons] at hmem
      rcases hmem with h1 | h2
      · exact ⟨p, List.mem_cons_self p ps, h1⟩
      · obtain ⟨q, hq, hv⟩ := ih (n + 1) h2
        exact ⟨q, List.mem_cons_of_mem _ hq, hv⟩

/-! ### Claim theorems -/

/-- C1 (counterexample): with only `title` and `label_config` supplied and
every optional parameter at its declared default, the keyword set forwarded
to `ls.projects.create` is NOT exactly `{title, label_config}`: the four
boolean options have non-`None` defaults (`False`/`True`/`True`/`False`),
survive the `is not None` filter, and are sent. -/
theorem create_project_defaults_send_extra_keys :
    (filterNoneKwargs (create_project_kwargs_defaults "My Project" "<View></View>")).map
        Prod.fst ≠ ["title", "label_config"] ∧
    (filterNoneKwargs (create_project_kwargs_defaults "My Project" "<View></View>")).map
        Prod.fst = ["title", "label_config", "show_instruction", "show_skip_button",
                    "enable_empty_annotation", "show_annotation_history"] := by
  exact ⟨by decide, rfl⟩

/-- C1 (amended): with only `title` and `label_config` supplied, the
keyword set forwarded to `ls.projects.create` is exactly `title`,
`label_config`, `show_instruction = False`, `show_skip_button = True`,
`enable_empty_annotation = True` and `show_annotation_history = False`, in
that order; `description`, `expert_instruction` and `color` (the
`None`-defaulted parameters) are not sent. -/
theorem create_project_defaults_forwarded_kwargs (title label_config : String) :
    filterNoneKwargs (create_project_kwargs_defaults title label_config) =
      [("title", KwArg.str title),
       ("label_config", KwArg.str label_config),
       ("show_instruction", KwArg.bool false),
       ("show_skip_button", KwArg.bool true),
       ("enable_empty_annotation", KwArg.bool true),
       ("show_annotation_history", KwArg.bool false)] := rfl

/-- C2: for every guarded tool body (any argument type, any body) invoked
under an unset connection handle, the wrapper returns exactly the fixed
sentinel string, and the result does not depend on the wrapped body (the
body is never invoked). -/
theorem unset_client_returns_sentinel {α : Type} (funcName : String)
    (f g : α → ToolOutcome) (args : α) :
    require_ls_connection Option.none funcName f args =
      "Error: Label Studio client not available. Please check server logs for initialization errors (e.g., missing 'LABEL_STUDIO_API_KEY', invalid key, or connection issue with 'LABEL_STUDIO_URL')." ∧
    require_ls_connection Option.none funcName f args =
      require_ls_connection Option.none funcName g args :=
  ⟨rfl, rfl⟩

/-- C3: for every guarded tool body that raises an exception, the wrapper
returns the string `"Error in function '<name>': [<ErrorKind>] <details>"`
built from the exception's type name and message; the wrapper is a total
function into strings, so no fault propagates to the hosting runtime. -/
theorem raised_exception_returned_as_string {α : Type} (c : LSClient)
    (funcName : String) (f : α → ToolOutcome) (args : α) (ty msg : String)
    (h : f args = ToolOutcome.raises ty msg) :
    require_ls_connection (Option.some c) funcName f args =
      "Error in function '" ++ funcName ++ "': [" ++ ty ++ "] " ++ msg := by
  simp [require_ls_connection, h]

/-- C3 witness: a body raising `ConnectionError("connection refused")`
under a set handle yields the formatted error string. -/
theorem raised_exception_returned_as_string_witness :
    require_ls_connection (Option.some ⟨"http://localhost:8080", "key"⟩)
      "get_label_studio_projects_tool"
      (fun (_ : Unit) => ToolOutcome.raises "ConnectionError" "connection refused") () =
      "Error in function 'get_label_studio_projects_tool': [ConnectionError] connection refused" :=
  (raised_exception_returned_as_string ⟨"http://localhost:8080", "key"⟩
      "get_label_studio_projects_tool"
      (fun (_ : Unit) => ToolOutcome.raises "ConnectionError" "connection refused") ()
      "ConnectionError" "connection refused" rfl).trans rfl

/-- C4: whatever the remote collections hold, the project listing iterates
at most 100 entries and the task listing at most 50, so the JSON arrays
the two tools return have at most 100 and 50 elements respectively. -/
theorem pager_iteration_limits (ps : List RemoteProject) (project_id : Int)
    (ts : List RemoteTask) :
    get_label_studio_projects_tool ps = jsonDumps (PyVal.arr (projects_loop ps 0)) ∧
    (projects_loop ps 0).length ≤ 100 ∧
    list_label_studio_project_tasks_tool project_id ts =
      jsonDumps (PyVal.arr (tasks_loop ts 0)) ∧
    (tasks_loop ts 0).length ≤ 50 :=
  ⟨rfl, projects_loop_length_le ps 0, rfl, tasks_loop_length_le ts 0⟩

/-- C5: when the file's content parses as JSON but its root is not a list —
and likewise for a missing file, a permission-denied file and malformed
JSON — `import_label_studio_project_tasks_tool` returns the corresponding
descriptive error string and issues no remote import call (its call list
is empty). -/
theorem import_tasks_short_circuits (base_url : String) (project_id : Int)
    (path : String) (importCall : Int → List PyVal → ImportCallResult)
    (v : PyVal) (m : String) (hv : ∀ l, v ≠ PyVal.arr l) :
    import_label_studio_project_tasks_tool base_url project_id path
        (FileJsonOutcome.parsed v) importCall =
      ("Error processing tasks file: JSON file '" ++ path ++
        "' must contain a valid JSON array (list).", []) ∧
    import_label_studio_project_tasks_tool base_url project_id path
        FileJsonOutcome.fileNotFound importCall =
      ("Error: Tasks file not found at path: " ++ path, []) ∧
    import_label_studio_project_tasks_tool base_url project_id path
        FileJsonOutcome.permissionDenied importCall =
      ("Error: Permission denied when trying to read file: " ++ path, []) ∧
    import_label_studio_project_tasks_tool base_url project_id path
        (FileJsonOutcome.jsonDecodeError m) importCall =
      ("Error: Invalid JSON format in file '" ++ path ++ "' - " ++ m, []) := by
  refine ⟨?_, rfl, rfl, rfl⟩
  cases v with
  | arr l => exact absurd rfl (hv l)
  | null => rfl
  | bool b => rfl
  | int n => rfl
  | str s => rfl
  | obj kvs => rfl

/-- C5 witness: a file holding the JSON object with the single entry
`"not": "a list"` yields the non-array error string and no remote call;
so do the three read-failure outcomes. -/
theorem import_tasks_short_circuits_witness :
    import_label_studio_project_tasks_tool "http://localhost:8080" 3 "tasks.json"
        (FileJsonOutcome.parsed (PyVal.obj [("not", PyVal.str "a list")]))
        (fun _ _ => ImportCallResult.ok (ImportResult.asDict [])) =
      ("Error processing tasks file: JSON file 'tasks.json' must contain a valid JSON array (list).", []) ∧
    import_label_studio_project_tasks_tool "http://localhost:8080" 3 "tasks.json"
        FileJsonOutcome.fileNotFound
        (fun _ _ => ImportCallResult.ok (ImportResult.asDict [])) =
      ("Error: Tasks file not found at path: tasks.json", []) ∧
    import_label_studio_project_tasks_tool "http://localhost:8080" 3 "tasks.json"
        FileJsonOutcome.permissionDenied
        (fun _ _ => ImportCallResult.ok (ImportResult.asDict [])) =
      ("Error: Permission denied when trying to read file: tasks.json", []) ∧
    import_label_studio_project_tasks_tool "http://localhost:8080" 3 "tasks.json"
        (FileJsonOutcome.jsonDecodeError "Expecting value: line 1 column 1 (char 0)")
        (fun _ _ => ImportCallResult.ok (ImportResult.asDict [])) =
      ("Error: Invalid JSON format in file 'tasks.json' - Expecting value: line 1 column 1 (char 0)", []) :=
  import_tasks_short_circuits "http://localhost:8080" 3 "tasks.json"
    (fun _ _ => ImportCallResult.ok (ImportResult.asDict []))
    (PyVal.obj [("not", PyVal.str "a list")])
    "Expecting value: line 1 column 1 (char 0)"
    (fun _ h => PyVal.noConfusion h)

/-- C6: with `model_version` and `score` left unset (their `None` defaults)
and a non-empty `result` list, the keyword set forwarded to
`ls.predictions.create` is exactly `task = task_id` and `result = result`;
`model_version` and `score` are filtered out. -/
theorem prediction_kwargs_only_task_and_result (task_id : Int)
    (result : List PyVal) (h : result ≠ []) :
    filterNoneKwargs
        (create_prediction_sdk_kwargs task_id result Option.none Option.none) =
      [("task", KwArg.int task_id), ("result", KwArg.list result)] := rfl

/-- C6 witness: the spec's single-choice prediction result forwards only
`task` and `result`. -/
theorem prediction_kwargs_only_task_and_result_witness :
    ([PyVal.obj [("from_name", PyVal.str "label"), ("to_name", PyVal.str "text"),
        ("type", PyVal.str "choices"),
        ("value", PyVal.obj [("choices", PyVal.arr [PyVal.str "Positive"])])]] :
      List PyVal) ≠ [] ∧
    filterNoneKwargs (create_prediction_sdk_kwargs 5
        [PyVal.obj [("from_name", PyVal.str "label"), ("to_name", PyVal.str "text"),
          ("type", PyVal.str "choices"),
          ("value", PyVal.obj [("choices", PyVal.arr [PyVal.str "Positive"])])]]
        Option.none Option.none) =
      [("task", KwArg.int 5),
       ("result", KwArg.list
          [PyVal.obj [("from_name", PyVal.str "label"), ("to_name", PyVal.str "text"),
            ("type", PyVal.str "choices"),
            ("value", PyVal.obj [("choices", PyVal.arr [PyVal.str "Positive"])])]])] :=
  ⟨List.cons_ne_nil _ _,
   prediction_kwargs_only_task_and_result 5
     [PyVal.obj [("from_name", PyVal.str "label"), ("to_name", PyVal.str "text"),
       ("type", PyVal.str "choices"),
       ("value", PyVal.obj [("choices", PyVal.arr [PyVal.str "Positive"])])]]
     (List.cons_ne_nil _ _)⟩

/-- C7: for a file whose content is a JSON array, the import tool issues
exactly one bulk-import call, passing the project id and the parsed list;
on success its result is the JSON dump of the remote result merged with a
`project_url` key whose value is `<base_url>/projects/<project_id>/data`. -/
theorem import_tasks_single_call_and_url (base_url : String)
    (project_id : Int) (path : String)
    (importCall : Int → List PyVal → ImportCallResult) (l : List PyVal)
    (res : ImportResult)
    (h : importCall project_id l = ImportCallResult.ok res) :
    (import_label_studio_project_tasks_tool base_url project_id path
        (FileJsonOutcome.parsed (PyVal.arr l)) importCall).2 = [(project_id, l)] ∧
    (import_label_studio_project_tasks_tool base_url project_id path
        (FileJsonOutcome.parsed (PyVal.arr l)) importCall).1 =
      jsonDumps (PyVal.obj (dictSet (import_response_dict res) "project_url"
        (PyVal.str (base_url ++ "/projects/" ++ toString project_id ++ "/data")))) ∧
    dictGet (dictSet (import_response_dict res) "project_url"
        (PyVal.str (base_url ++ "/projects/" ++ toString project_id ++ "/data")))
        "project_url" =
      Option.some (PyVal.str (base_url ++ "/projects/" ++ toString project_id ++ "/data")) := by
  refine ⟨?_, ?_, dictGet_dictSet _ _ _⟩ <;>
    simp [import_label_studio_project_tasks_tool, h]

/-- C7 witness: importing the one-task file `[{"data": {"text": "hello"}}]`
into project 3 issues the single call `(3, that list)` and the response
dict carries `project_url = http://localhost:8080/projects/3/data`. -/
theorem import_tasks_single_call_and_url_witness :
    (import_label_studio_project_tasks_tool "http://localhost:8080" 3 "tasks.json"
        (FileJsonOutcome.parsed
          (PyVal.arr [PyVal.obj [("data", PyVal.obj [("text", PyVal.str "hello")])]]))
        (fun _ _ => ImportCallResult.ok
          (ImportResult.asDict [("task_count", PyVal.int 1)]))).2 =
      [((3 : Int), [PyVal.obj [("data", PyVal.obj [("text", PyVal.str "hello")])]])] ∧
    (import_label_studio_project_tasks_tool "http://localhost:8080" 3 "tasks.json"
        (FileJsonOutcome.parsed
          (PyVal.arr [PyVal.obj [("data", PyVal.obj [("text", PyVal.str "hello")])]]))
        (fun _ _ => ImportCallResult.ok
          (ImportResult.asDict [("task_count", PyVal.int 1)]))).1 =
      jsonDumps (PyVal.obj (dictSet
        (import_response_dict (ImportResult.asDict [("task_count", PyVal.int 1)]))
        "project_url"
        (PyVal.str ("http://localhost:8080" ++ "/projects/" ++ toString (3 : Int) ++ "/data")))) ∧
    dictGet (dictSet
        (import_response_dict (ImportResult.asDict [("task_count", PyVal.int 1)]))
        "project_url"
        (PyVal.str ("http://localhost:8080" ++ "/projects/" ++ toString (3 : Int) ++ "/data")))
        "project_url" =
      Option.some (PyVal.str ("http://localhost:8080" ++ "/projects/" ++ toString (3 : Int) ++ "/data")) :=
  import_tasks_single_call_and_url "http://localhost:8080" 3 "tasks.json"
    (fun _ _ => ImportCallResult.ok (ImportResult.asDict [("task_count", PyVal.int 1)]))
    [PyVal.obj [("data", PyVal.obj [("text", PyVal.str "hello")])]]
    (ImportResult.asDict [("task_count", PyVal.int 1)]) rfl

/-- C8: for every project exposing the structured full-dump accessor, the
details dict never carries an `updated_at` key, its `created_at` key holds
the attribute's ISO rendering when the project carries one and JSON `null`
otherwise — so `created_at` appears as a string exactly when the project
carries a `created_at` value. -/
theorem project_details_volatile_fields (p : ProjectRecord) :
    (∀ kv ∈ project_details_data p, kv.1 ≠ "updated_at") ∧
    dictGet (project_details_data p) "created_at" =
      Option.some (match p.created_at with
        | Option.some dt => PyVal.str dt.isoformat
        | Option.none => PyVal.null) ∧
    ((∃ s, dictGet (project_details_data p) "created_at" =
        Option.some (PyVal.str s)) ↔ ∃ dt, p.created_at = Option.some dt) := by
  have hdd : project_details_data p =
      dictSet (p.model_dump_fields.filter
        (fun kv => !(kv.1 == "created_at") && !(kv.1 == "updated_at")))
        "created_at"
        (match p.created_at with
         | Option.some dt => PyVal.str dt.isoformat
         | Option.none => PyVal.null) := rfl
  refine ⟨?_, ?_, ?_⟩
  · intro kv hmem
    rw [hdd] at hmem
    rcases mem_dictSet _ _ _ _ hmem with hkv | hkv
    · subst hkv
      show ("created_at" : String) ≠ "updated_at"
      decide
    · have hpred := List.of_mem_filter hkv
      rcases (Bool.and_eq_true ..).mp hpred with ⟨-, h2⟩
      intro h
      rw [h] at h2
      simp at h2
  · rw [hdd]; exact dictGet_dictSet _ _ _
  · rw [hdd]
    cases hca : p.created_at with
    | some dt =>
      constructor
      · intro _; exact ⟨dt, rfl⟩
      · intro _; exact ⟨dt.isoformat, dictGet_dictSet _ _ _⟩
    | none =>
      constructor
      · rintro ⟨s, hs⟩
        rw [dictGet_dictSet] at hs
        exact PyVal.noConfusion (Option.some.inj hs)
      · rintro ⟨dt, hdt⟩
        exact Option.noConfusion hdt

/-- C9: `get_label_studio_task_data_tool` ignores `project_id` — the result
is the same for any two project ids — and returns the JSON dump of the
task fetched by `task_id` alone: its `data` mapping, or the JSON text
`"{}"` when the task object has no `data` attribute. -/
theorem task_data_ignores_project_id (tasks_get : Int → RemoteTask)
    (project_id project_id' task_id : Int) :
    get_label_studio_task_data_tool tasks_get project_id task_id =
      get_label_studio_task_data_tool tasks_get project_id' task_id ∧
    get_label_studio_task_data_tool tasks_get project_id task_id =
      (match (tasks_get task_id).data with
        | Option.some d => jsonDumps d
        | Option.none => "\x7b\x7d") := by
  refine ⟨rfl, ?_⟩
  cases h : (tasks_get task_id).data with
  | some d => simp [get_label_studio_task_data_tool, h]
  | none =>
    simp only [get_label_studio_task_data_tool, h]
    rfl

/-- C10: every element of the project listing is the summary of some
remote entry, a dict with exactly the keys `id`, `title` and `task_count`;
an entry lacking the `title` attribute yields the literal `"N/A"` and one
lacking `task_number` yields `0`, through `getattr`'s defaults. -/
theorem projects_listing_element_shape (ps : List RemoteProject) (v : PyVal)
    (hmem : v ∈ projects_loop ps 0) :
    ∃ p, p ∈ ps ∧
      v = PyVal.obj [("id", PyVal.int p.id),
                     ("title", p.title.getD (PyVal.str "N/A")),
                     ("task_count", p.task_number.getD (PyVal.int 0))] := by
  obtain ⟨p, hp, hv⟩ := mem_projects_loop ps 0 v hmem
  exact ⟨p, hp, hv⟩

/-- C10 witness: a remote entry with id 7 and neither a `title` nor a
`task_number` attribute is listed as
`{"id": 7, "title": "N/A", "task_count": 0}`. -/
theorem projects_listing_element_shape_witness :
    ∃ p, p ∈ [RemoteProject.mk 7 Option.none Option.none] ∧
      PyVal.obj [("id", PyVal.int 7), ("title", PyVal.str "N/A"),
                 ("task_count", PyVal.int 0)] =
        PyVal.obj [("id", PyVal.int p.id),
                   ("title", p.title.getD (PyVal.str "N/A")),
                   ("task_count", p.task_number.getD (PyVal.int 0))] :=
  projects_listing_element_shape [RemoteProject.mk 7 Option.none Option.none] _
    (by
      have h : projects_loop [RemoteProject.mk 7 Option.none Option.none] 0 =
          [PyVal.obj [("id", PyVal.int 7), ("title", PyVal.str "N/A"),
                      ("task_count", PyVal.int 0)]] := rfl
      rw [h]
      exact List.mem_singleton.mpr rfl)

end LabelStudioMcp
